import Mathlib

/-!
Shallow embedding of `scripts/create_issues.py` (GitHub Issues Bulk Creator).

The script is a single orchestrator class `GitHubIssueCreator` holding two
in-run caches (`milestone_cache : Dict[str, int]`, `label_cache : List[str]`)
and a `dry_run` flag.  Every remote effect goes through `run_gh_command`,
which invokes the external `gh` CLI and returns `stdout.strip()` on success
and `None` on a nonzero exit.

The embedding models the external backend as an oracle `GhEnv` mapping each
concrete CLI invocation (`GhCall`) to the `Optional[str]` outcome of
`run_gh_command`'s underlying process call.  Each operation returns its
result together with the successor state and the list of remote calls it
issued, so that claims about "no remote call" and "at most one remote
sequence" are statements about the trace.  The unguarded
`int(output.strip())` conversions in `create_or_get_milestone` (lines 70 and
85 of the source) can raise `ValueError`; this is modelled by the `Except`
layer, whose error value carries the calls issued before the raise.
-/

/-- A concrete invocation of the external `gh` CLI, one constructor per call
site in the source. -/
inductive GhCall where
  /-- `gh api repos/{repo}/milestones --jq '... select(.title == title) ...'`
  (source lines 62-67): list milestones, filter by exact title. -/
  | apiListMilestones (repo : String) (title : String)
  /-- `gh api repos/{repo}/milestones -f title=... --jq .number`
  (source lines 77-82): create a milestone. -/
  | apiCreateMilestone (repo : String) (title : String)
  /-- `gh label list --json name --jq '... select(.name == label) ...'`
  (source lines 104-109): list labels, filter by exact name. -/
  | labelList (label : String)
  /-- `gh label create <label> --color <color>` (source lines 117-122). -/
  | labelCreate (label : String) (color : String)
  /-- `gh issue create --title .. --body .. [--label ..] [--milestone ..]`
  (source lines 164-175). -/
  | issueCreateCmd (title : String) (body : String)
      (labelArg : Option String) (milestoneArg : Option String)
deriving DecidableEq, Repr

/-- Whether a call mutates remote state (`gh api POST`, `label create`,
`issue create`); the two list calls are read-only. -/
def GhCall.isMutating : GhCall → Bool
  | .apiCreateMilestone _ _ => true
  | .labelCreate _ _ => true
  | .issueCreateCmd _ _ _ _ => true
  | _ => false

/-- The external backend: for each CLI invocation, the outcome of
`run_gh_command`'s `subprocess.run` — `some stdout` on success (raw stdout,
before the `.strip()` applied by `run_gh_command`), `none` when the command
exits nonzero (`CalledProcessError`). -/
structure GhEnv where
  respond : GhCall → Option String

/-- Drop leading whitespace characters from a character list. -/
def dropLeadingWs : List Char → List Char
  | [] => []
  | c :: rest => if c.isWhitespace then dropLeadingWs rest else c :: rest

/-- Python `str.strip()` on the character list: drop whitespace from both
ends. -/
def pyStripChars (l : List Char) : List Char :=
  (dropLeadingWs (dropLeadingWs l).reverse).reverse

/-- Python `str.strip()`. -/
def pyStrip (s : String) : String :=
  ⟨pyStripChars s.data⟩

/-- `run_gh_command` (source lines 36-48): returns `result.stdout.strip()`
on success and `None` on error. -/
def run_gh_command (env : GhEnv) (c : GhCall) : Option String :=
  (env.respond c).map pyStrip

/-- Python truthiness of an `Optional[str]`: `None` and `""` are falsy. -/
def pyTruthy : Option String → Bool
  | none => false
  | some s => s ≠ ""

/-- Python truthiness of an `Optional[int]` milestone number: `None` and `0`
are falsy (the source tests `if not milestone_number`). -/
def intTruthy : Option Int → Bool
  | none => false
  | some n => n != 0

/-- Parse a non-empty run of decimal digits into a number; `none` as soon as
a non-digit appears. -/
def parseDigitsAux : List Char → Nat → Option Nat
  | [], acc => some acc
  | c :: rest, acc =>
    if c.isDigit then parseDigitsAux rest (acc * 10 + (c.toNat - 48)) else none

/-- Parse a non-empty all-digit character list. -/
def parseDigits : List Char → Option Nat
  | [] => none
  | l => parseDigitsAux l 0

/-- Parse an optionally signed decimal numeral. -/
def pyIntOfChars : List Char → Option Int
  | '-' :: rest => (parseDigits rest).map (fun n => -(n : Int))
  | '+' :: rest => (parseDigits rest).map (fun n => (n : Int))
  | l => (parseDigits l).map (fun n => (n : Int))

/-- `int(s.strip())`: `some` the parsed integer, `none` when Python would
raise `ValueError` on a non-numeral. -/
def pyInt (s : String) : Option Int :=
  pyIntOfChars (pyStripChars s.data)

/-- The mutable fields of `GitHubIssueCreator` (source lines 30-34).  The
milestone cache is an association list with fresh keys consed in front
(entries are only added for titles not yet present, so first-match lookup
coincides with Python dict lookup); the label cache appends at the end
(`list.append`). -/
structure CreatorState where
  dry_run : Bool
  milestone_cache : List (String × Int)
  label_cache : List String
deriving DecidableEq, Repr

/-- The state `__init__` builds: empty caches. -/
def initState (dry : Bool) : CreatorState :=
  { dry_run := dry, milestone_cache := [], label_cache := [] }

/-- Dict lookup `title in self.milestone_cache` / `self.milestone_cache[title]`. -/
def mcLookup : List (String × Int) → String → Option Int
  | [], _ => none
  | (t, n) :: rest, k => if t = k then some n else mcLookup rest k

/-- List membership `label in self.label_cache`. -/
def hasLabel : List String → String → Bool
  | [], _ => false
  | l :: rest, k => if l = k then true else hasLabel rest k

/-- `self.milestone_cache[title] = n`. -/
def mcache (st : CreatorState) (title : String) (n : Int) : CreatorState :=
  { st with milestone_cache := (title, n) :: st.milestone_cache }

/-- `self.label_cache.append(label)`. -/
def lcache (st : CreatorState) (label : String) : CreatorState :=
  { st with label_cache := st.label_cache ++ [label] }

/-- `create_or_get_milestone` (source lines 50-90).  Returns the milestone
number (or `none` for failure), the successor state, and the remote calls
issued; `.error cs` models the uncaught `ValueError` that
`int(output.strip())` raises on a non-empty non-numeral response, with `cs`
the calls issued before the raise. -/
def create_or_get_milestone (env : GhEnv) (repo : String) (st : CreatorState)
    (title : String) :
    Except (List GhCall) (Option Int × CreatorState × List GhCall) :=
  match mcLookup st.milestone_cache title with
  | some n => .ok (some n, st, [])
  | none =>
    if st.dry_run then
      -- `self.milestone_cache[title] = 1  # Fake ID for dry run`
      .ok (some 1, mcache st title 1, [])
    else
      let c1 := GhCall.apiListMilestones repo title
      let out1 := run_gh_command env c1
      if pyTruthy out1 && pyTruthy (out1.map pyStrip) then
        match pyInt (out1.getD "") with
        | some n => .ok (some n, mcache st title n, [c1])
        | none => .error [c1]
      else
        let c2 := GhCall.apiCreateMilestone repo title
        let out2 := run_gh_command env c2
        if pyTruthy out2 then
          match pyInt (out2.getD "") with
          | some n => .ok (some n, mcache st title n, [c1, c2])
          | none => .error [c1, c2]
        else
          .ok (none, st, [c1, c2])

/-- `create_label_if_missing` (source lines 92-129).  Returns success,
successor state and remote calls; label creation counts as success whenever
the `gh label create` process itself succeeds (`result is not None`). -/
def create_label_if_missing (env : GhEnv) (st : CreatorState) (label : String)
    (color : String) : Bool × CreatorState × List GhCall :=
  if hasLabel st.label_cache label then (true, st, [])
  else if st.dry_run then (true, lcache st label, [])
  else
    let c1 := GhCall.labelList label
    let out1 := run_gh_command env c1
    if pyTruthy out1 && (pyStrip (out1.getD "") == label) then
      (true, lcache st label, [c1])
    else
      let c2 := GhCall.labelCreate label color
      match run_gh_command env c2 with
      | some _ => (true, lcache st label, [c1, c2])
      | none => (false, st, [c1, c2])

/-- One issue record as read from the YAML dict: `issue_data.get("title")`,
`issue_data.get("body", "")`, `issue_data.get("labels", [])`,
`issue_data.get("milestone")` (source lines 133-136), with the `.get`
defaults folded in. -/
structure IssueSpec where
  title : Option String
  body : String
  labels : List String
  milestone : Option String
deriving DecidableEq, Repr

/-- The label loop of `create_issue` (source lines 152-155): every requested
label goes through `create_label_if_missing` with the default color
`"0366d6"`; a `False` result only prints a warning and is otherwise
ignored. -/
def ensureLabels (env : GhEnv) : List String → CreatorState → CreatorState × List GhCall
  | [], st => (st, [])
  | l :: rest, st =>
    let r1 := create_label_if_missing env st l "0366d6"
    let r2 := ensureLabels env rest r1.2.1
    (r2.1, r1.2.2 ++ r2.2)

/-- `--label ",".join(labels)`, added only `if labels:` (source lines 167-168). -/
def labelArgOf (labels : List String) : Option String :=
  if labels.isEmpty then none else some (String.intercalate "," labels)

/-- `--milestone milestone`, added only `if milestone:` (source lines 170-171);
the milestone is passed by title, not by the resolved number. -/
def msArgOf (milestone : Option String) : Option String :=
  if pyTruthy milestone then milestone else none

/-- The tail of `create_issue` after the milestone step (source lines
152-182): run the label loop, then either print the dry-run preview and
return `True`, or submit `gh issue create` and succeed exactly when its
output is non-empty. -/
def finishIssue (env : GhEnv) (st : CreatorState) (issue : IssueSpec)
    (cs0 : List GhCall) : Bool × CreatorState × List GhCall :=
  let r := ensureLabels env issue.labels st
  let st2 := r.1
  let cs2 := r.2
  if st2.dry_run then (true, st2, cs0 ++ cs2)
  else
    let c := GhCall.issueCreateCmd (issue.title.getD "") issue.body
      (labelArgOf issue.labels) (msArgOf issue.milestone)
    if pyTruthy (run_gh_command env c) then (true, st2, cs0 ++ cs2 ++ [c])
    else (false, st2, cs0 ++ cs2 ++ [c])

/-- `create_issue` (source lines 131-182): skip on falsy title; resolve the
milestone when one is requested, aborting (`False`) when resolution yields a
falsy number; then `finishIssue`. -/
def create_issue (env : GhEnv) (repo : String) (st : CreatorState)
    (issue : IssueSpec) :
    Except (List GhCall) (Bool × CreatorState × List GhCall) :=
  if pyTruthy issue.title = false then .ok (false, st, [])
  else if pyTruthy issue.milestone then
    match create_or_get_milestone env repo st (issue.milestone.getD "") with
    | .error cs => .error cs
    | .ok (msNum, st1, cs1) =>
      if intTruthy msNum = false then .ok (false, st1, cs1)
      else .ok (finishIssue env st1 issue cs1)
  else .ok (finishIssue env st issue [])

/-- The statistics loop of `process_yaml` (source lines 209-217): run
`create_issue` on each record in order, tallying created and failed; an
uncaught exception propagates. -/
def runIssues (env : GhEnv) (repo : String) :
    CreatorState → List IssueSpec →
    Except (List GhCall) (Nat × Nat × CreatorState × List GhCall)
  | st, [] => .ok (0, 0, st, [])
  | st, issue :: rest =>
    match create_issue env repo st issue with
    | .error cs => .error cs
    | .ok (ok, st1, cs) =>
      match runIssues env repo st1 rest with
      | .error cs' => .error (cs ++ cs')
      | .ok (c, f, st2, cs') =>
        .ok ((if ok then c + 1 else c), (if ok then f else f + 1), st2, cs ++ cs')

/-- The parsed YAML document: `data.get("issues", [])` reads the optional
top-level `issues` field (`none` models both an absent key and a null
value). -/
structure YamlDoc where
  issuesField : Option (List IssueSpec)
deriving DecidableEq, Repr

/-- Observable outcome of one run. -/
inductive RunResult where
  /-- Normal completion with the printed summary (source lines 219-231). -/
  | summary (created : Nat) (failed : Nat) (total : Nat)
  /-- `"No issues found in YAML file"` and an early return (lines 203-205):
  no summary block is printed. -/
  | noIssues
  /-- `sys.exit(1)` after `"Error loading YAML"` (lines 197-199). -/
  | configError
  /-- `sys.exit(1)` in `main` when `gh --version` fails (lines 256-267). -/
  | backendMissing
  /-- An exception escaped `process_yaml` (the `ValueError` of
  `int(output.strip())`): Python prints a traceback and exits nonzero. -/
  | uncaught
deriving DecidableEq, Repr

/-- `process_yaml` (source lines 184-231), with the YAML load outcome passed
in as `doc` (`none` models a file that fails to open or parse). -/
def process_yaml (env : GhEnv) (repo : String) (dry : Bool)
    (doc : Option YamlDoc) : RunResult × List GhCall :=
  match doc with
  | none => (.configError, [])
  | some d =>
    let issues := d.issuesField.getD []
    if issues.isEmpty then (.noIssues, [])
    else
      match runIssues env repo (initState dry) issues with
      | .error cs => (.uncaught, cs)
      | .ok (c, f, _, cs) => (.summary c f issues.length, cs)

/-- `main` (source lines 234-271): the `gh --version` probe guards all
processing; `ghAvailable` is its outcome. -/
def mainEntry (ghAvailable : Bool) (env : GhEnv) (repo : String) (dry : Bool)
    (doc : Option YamlDoc) : RunResult × List GhCall :=
  if ghAvailable then process_yaml env repo dry doc
  else (.backendMissing, [])

/-- Process exit status of each outcome: `sys.exit(1)` and an uncaught
exception exit nonzero, everything else falls off `main` and exits zero. -/
def exitCode : RunResult → Nat
  | .summary _ _ _ => 0
  | .noIssues => 0
  | .configError => 1
  | .backendMissing => 1
  | .uncaught => 1

/-- Number of issue records with a truthy title. -/
def countTruthy (issues : List IssueSpec) : Nat :=
  (issues.filter (fun i => pyTruthy i.title)).length

/-- Number of issue records with a falsy title. -/
def countFalsy (issues : List IssueSpec) : Nat :=
  (issues.filter (fun i => pyTruthy i.title = false)).length

/-- Every cached milestone number is nonzero.  This holds in every reachable
state: the dry-run placeholder is `1` and live entries come from backend
responses (a `0` response would be cached and later treated as falsy, but
GitHub milestone numbers start at 1). -/
def cacheNonzero (st : CreatorState) : Bool :=
  st.milestone_cache.all (fun p => p.2 != 0)

/-- A backend on which every remote call succeeds: milestone lookups and
creations answer with (possibly empty for the lookup) nonzero decimal
numerals, label calls succeed, and issue creation returns a non-empty
result (the new issue's URL). -/
def successfulEnv (env : GhEnv) : Prop :=
  (∀ repo title, ∃ t, run_gh_command env (.apiListMilestones repo title) = some t ∧
      (t ≠ "" → ∃ n : Int, pyInt t = some n ∧ n ≠ 0)) ∧
  (∀ repo title, ∃ t, run_gh_command env (.apiCreateMilestone repo title) = some t ∧
      ∃ n : Int, pyInt t = some n ∧ n ≠ 0) ∧
  (∀ l, ∃ t, run_gh_command env (.labelList l) = some t) ∧
  (∀ l c, (run_gh_command env (.labelCreate l c)).isSome) ∧
  (∀ t b la ma, ∃ s, run_gh_command env (.issueCreateCmd t b la ma) = some s ∧ s ≠ "")

/-- A backend on which every call fails (`gh` always exits nonzero). -/
def failEnv : GhEnv := ⟨fun _ => none⟩

/-- A backend whose every response is the non-numeral `"abc"`. -/
def nonNumericEnv : GhEnv := ⟨fun _ => some "abc"⟩

/-- A backend on which every call succeeds: numeral responses for milestone
calls, a URL-like response otherwise. -/
def okEnv : GhEnv :=
  ⟨fun c => match c with
    | .apiListMilestones _ _ => some "1"
    | .apiCreateMilestone _ _ => some "1"
    | _ => some "ok"⟩

/-- Sample issue: title `"A"`, milestone `"M"`. -/
def issueA : IssueSpec := ⟨some "A", "", [], some "M"⟩

/-- Sample issue: title `"B"`, same milestone `"M"` as `issueA`. -/
def issueB : IssueSpec := ⟨some "B", "", [], some "M"⟩

/-- Sample issue with two labels and no milestone. -/
def issueLabeled : IssueSpec := ⟨some "T", "b", ["bug", "x"], none⟩

/-- Sample issue without a title. -/
def issueNoTitle : IssueSpec := ⟨none, "", [], none⟩

/-- Sample configuration: the two milestone-sharing issues. -/
def docAB : Option YamlDoc := some ⟨some [issueA, issueB]⟩

/-- Sample configuration: a single issue with a milestone. -/
def docA : Option YamlDoc := some ⟨some [issueA]⟩

/-! ## Helper lemmas -/

theorem mcache_dry_run (st : CreatorState) (t : String) (n : Int) :
    (mcache st t n).dry_run = st.dry_run := rfl

theorem lcache_dry_run (st : CreatorState) (l : String) :
    (lcache st l).dry_run = st.dry_run := rfl

theorem mcLookup_mcache_self (st : CreatorState) (t : String) (n : Int) :
    mcLookup (mcache st t n).milestone_cache t = some n := by
  simp [mcache, mcLookup]

theorem mcLookup_nonzero (l : List (String × Int)) (k : String) (n : Int)
    (hall : l.all (fun p => p.2 != 0) = true) (h : mcLookup l k = some n) :
    n ≠ 0 := by
  induction l with
  | nil => simp [mcLookup] at h
  | cons p rest ih =>
    simp only [List.all_cons, Bool.and_eq_true, bne_iff_ne, ne_eq] at hall
    obtain ⟨p1, p2⟩ := p
    simp only [mcLookup] at h
    split at h
    · cases h; exact hall.1
    · exact ih hall.2 h

theorem cacheNonzero_mcache (st : CreatorState) (t : String) (n : Int)
    (hc : cacheNonzero st = true) (hn : n ≠ 0) :
    cacheNonzero (mcache st t n) = true := by
  unfold cacheNonzero at hc ⊢
  simp only [mcache, List.all_cons, Bool.and_eq_true]
  exact ⟨by simpa using hn, hc⟩

theorem hasLabel_append_self (l : List String) (x : String) :
    hasLabel (l ++ [x]) x = true := by
  induction l with
  | nil => simp [hasLabel]
  | cons a as ih => by_cases h : a = x <;> simp [hasLabel, h, ih]

/-- In dry-run mode, `create_or_get_milestone` issues no remote call, always
succeeds with a nonzero number, and leaves the title cached. -/
theorem cogm_dry (env : GhEnv) (repo : String) (st : CreatorState) (title : String)
    (h : st.dry_run = true) (hc : cacheNonzero st = true) :
    ∃ n st', create_or_get_milestone env repo st title = .ok (some n, st', []) ∧
      n ≠ 0 ∧ mcLookup st'.milestone_cache title = some n ∧
      st'.dry_run = true ∧ cacheNonzero st' = true ∧
      st'.label_cache = st.label_cache := by
  unfold create_or_get_milestone
  cases hm : mcLookup st.milestone_cache title with
  | some n =>
    refine ⟨n, st, rfl, ?_, hm, h, hc, rfl⟩
    exact mcLookup_nonzero _ _ _ hc hm
  | none =>
    refine ⟨1, mcache st title 1, by simp [h], by simp, mcLookup_mcache_self st title 1,
      h, cacheNonzero_mcache st title 1 hc (by simp), rfl⟩

/-- In dry-run mode, `create_label_if_missing` issues no remote call, always
succeeds, and leaves the label cached. -/
theorem clim_dry (env : GhEnv) (st : CreatorState) (label color : String)
    (h : st.dry_run = true) :
    ∃ st', create_label_if_missing env st label color = (true, st', []) ∧
      st'.dry_run = true ∧ st'.milestone_cache = st.milestone_cache ∧
      hasLabel st'.label_cache label = true := by
  unfold create_label_if_missing
  cases hl : hasLabel st.label_cache label with
  | true => exact ⟨st, by simp [hl], h, rfl, hl⟩
  | false =>
    exact ⟨lcache st label, by simp [hl, h], h, rfl,
      hasLabel_append_self st.label_cache label⟩

/-- In dry-run mode the label loop issues no remote call and leaves the
milestone cache untouched. -/
theorem ensureLabels_dry (env : GhEnv) (ls : List String) (st : CreatorState)
    (h : st.dry_run = true) :
    ∃ st', ensureLabels env ls st = (st', []) ∧ st'.dry_run = true ∧
      st'.milestone_cache = st.milestone_cache := by
  induction ls generalizing st with
  | nil => exact ⟨st, rfl, h, rfl⟩
  | cons l rest ih =>
    obtain ⟨st1, h1, hd1, hm1, _⟩ := clim_dry env st l "0366d6" h
    obtain ⟨st2, h2, hd2, hm2⟩ := ih st1 hd1
    exact ⟨st2, by simp [ensureLabels, h1, h2], hd2, hm2.trans hm1⟩

/-- In dry-run mode `create_issue` issues no remote call and returns `True`
exactly when the title is truthy. -/
theorem create_issue_dry (env : GhEnv) (repo : String) (st : CreatorState)
    (issue : IssueSpec) (h : st.dry_run = true) (hc : cacheNonzero st = true) :
    ∃ st', create_issue env repo st issue = .ok (pyTruthy issue.title, st', []) ∧
      st'.dry_run = true ∧ cacheNonzero st' = true := by
  unfold create_issue
  cases ht : pyTruthy issue.title with
  | false => exact ⟨st, by simp, h, hc⟩
  | true =>
    cases hm : pyTruthy issue.milestone with
    | true =>
      obtain ⟨n, st1, h1, hn, _, hd1, hc1, _⟩ :=
        cogm_dry env repo st (issue.milestone.getD "") h hc
      obtain ⟨st2, h2, hd2, hm2⟩ := ensureLabels_dry env issue.labels st1 hd1
      refine ⟨st2, ?_, hd2, ?_⟩
      · simp only [h1, finishIssue, h2, hd2, intTruthy]
        simp [hn]
      · simpa [cacheNonzero, hm2] using hc1
    | false =>
      obtain ⟨st2, h2, hd2, hm2⟩ := ensureLabels_dry env issue.labels st h
      refine ⟨st2, ?_, hd2, ?_⟩
      · simp only [finishIssue, h2, hd2]
        simp
      · simpa [cacheNonzero, hm2] using hc

/-- In dry-run mode the whole statistics loop issues no remote call and
tallies exactly the truthy-title issues as created. -/
theorem runIssues_dry (env : GhEnv) (repo : String) (st : CreatorState)
    (issues : List IssueSpec) (h : st.dry_run = true) (hc : cacheNonzero st = true) :
    ∃ st', runIssues env repo st issues =
      .ok (countTruthy issues, countFalsy issues, st', []) ∧
      st'.dry_run = true ∧ cacheNonzero st' = true := by
  induction issues generalizing st with
  | nil => exact ⟨st, by simp [runIssues, countTruthy, countFalsy], h, hc⟩
  | cons issue rest ih =>
    obtain ⟨st1, h1, hd1, hc1⟩ := create_issue_dry env repo st issue h hc
    obtain ⟨st2, h2, hd2, hc2⟩ := ih st1 hd1 hc1
    refine ⟨st2, ?_, hd2, hc2⟩
    cases ht : pyTruthy issue.title <;>
      simp [runIssues, h1, h2, ht, countTruthy, countFalsy, List.filter]

theorem pyInt_empty : pyInt "" = none := by decide

theorem pyInt_some_ne_empty {s : String} {n : Int} (h : pyInt s = some n) :
    s ≠ "" := by
  intro he
  rw [he, pyInt_empty] at h
  cases h

theorem pyIntOfChars_nil : pyIntOfChars [] = none := rfl

theorem pyInt_some_strip_ne_empty {s : String} {n : Int} (h : pyInt s = some n) :
    pyStrip s ≠ "" := by
  intro he
  have hd : pyStripChars s.data = [] := congrArg String.data he
  unfold pyInt at h
  rw [hd, pyIntOfChars_nil] at h
  cases h

/-- Stripping is idempotent at the level the proofs need: the strip of an
already produced `run_gh_command` output parses the same. -/
theorem pyStrip_data (s : String) : (pyStrip s).data = pyStripChars s.data := rfl

/-- `create_label_if_missing` has exactly three outcomes: a silent cache hit,
a success that appends the label to the cache, or a failure that leaves the
state untouched. -/
theorem clim_cases (env : GhEnv) (st : CreatorState) (l c : String) :
    create_label_if_missing env st l c = (true, st, []) ∨
    (∃ cs, create_label_if_missing env st l c = (true, lcache st l, cs)) ∨
    (∃ cs, create_label_if_missing env st l c = (false, st, cs)) := by
  unfold create_label_if_missing
  cases h1 : hasLabel st.label_cache l with
  | true => exact Or.inl (by simp [h1])
  | false =>
    cases h2 : st.dry_run with
    | true => exact Or.inr (Or.inl ⟨[], by simp [h1, h2]⟩)
    | false =>
      cases h3 : (pyTruthy (run_gh_command env (.labelList l)) &&
          (pyStrip ((run_gh_command env (.labelList l)).getD "") == l)) with
      | true => exact Or.inr (Or.inl ⟨[.labelList l], by simp [h1, h2, h3]⟩)
      | false =>
        cases h4 : run_gh_command env (.labelCreate l c) with
        | some s =>
          exact Or.inr (Or.inl ⟨[.labelList l, .labelCreate l c],
            by simp [h1, h2, h3, h4]⟩)
        | none =>
          exact Or.inr (Or.inr ⟨[.labelList l, .labelCreate l c],
            by simp [h1, h2, h3, h4]⟩)

theorem clim_keeps (env : GhEnv) (st : CreatorState) (l c : String) :
    ((create_label_if_missing env st l c).2.1).dry_run = st.dry_run ∧
    ((create_label_if_missing env st l c).2.1).milestone_cache = st.milestone_cache := by
  rcases clim_cases env st l c with h | ⟨cs, h⟩ | ⟨cs, h⟩ <;> simp [h, lcache]

theorem ensureLabels_keeps (env : GhEnv) (ls : List String) (st : CreatorState) :
    ((ensureLabels env ls st).1).dry_run = st.dry_run ∧
    ((ensureLabels env ls st).1).milestone_cache = st.milestone_cache := by
  induction ls generalizing st with
  | nil => exact ⟨rfl, rfl⟩
  | cons l rest ih =>
    have hk := clim_keeps env st l "0366d6"
    have hr := ih (create_label_if_missing env st l "0366d6").2.1
    simp only [ensureLabels]
    exact ⟨hr.1.trans hk.1, hr.2.trans hk.2⟩

/-- On a fully successful backend a live `create_or_get_milestone` always
resolves to a nonzero number. -/
theorem cogm_live_ok (env : GhEnv) (repo : String) (st : CreatorState)
    (title : String) (hs : successfulEnv env) (hd : st.dry_run = false)
    (hc : cacheNonzero st = true) :
    ∃ n st' cs, create_or_get_milestone env repo st title = .ok (some n, st', cs) ∧
      n ≠ 0 ∧ st'.dry_run = false ∧ cacheNonzero st' = true := by
  unfold create_or_get_milestone
  cases hm : mcLookup st.milestone_cache title with
  | some n =>
    exact ⟨n, st, [], rfl, mcLookup_nonzero _ _ _ hc hm, hd, hc⟩
  | none =>
    simp only [hd, Bool.false_eq_true, if_false]
    obtain ⟨t, hresp, himp⟩ := hs.1 repo title
    by_cases hte : t = ""
    · subst hte
      obtain ⟨t2, hresp2, n, hn, hnz⟩ := hs.2.1 repo title
      refine ⟨n, mcache st title n,
        [GhCall.apiListMilestones repo title, GhCall.apiCreateMilestone repo title],
        ?_, hnz, hd, cacheNonzero_mcache st title n hc hnz⟩
      simp [hresp, hresp2, pyTruthy, pyInt_some_ne_empty hn, hn]
    · obtain ⟨n, hn, hnz⟩ := himp hte
      refine ⟨n, mcache st title n, [GhCall.apiListMilestones repo title],
        ?_, hnz, hd, cacheNonzero_mcache st title n hc hnz⟩
      simp [hresp, pyTruthy, hte, pyInt_some_strip_ne_empty hn, hn]

/-- On a fully successful backend the issue-submission tail of
`create_issue` always succeeds. -/
theorem finishIssue_live (env : GhEnv) (st : CreatorState) (issue : IssueSpec)
    (cs0 : List GhCall) (hs : successfulEnv env) (hd : st.dry_run = false) :
    ∃ st' cs, finishIssue env st issue cs0 = (true, st', cs) ∧
      st'.dry_run = false ∧ st'.milestone_cache = st.milestone_cache := by
  have hk := ensureLabels_keeps env issue.labels st
  obtain ⟨s, hresp, hne⟩ := hs.2.2.2.2 (issue.title.getD "") issue.body
    (labelArgOf issue.labels) (msArgOf issue.milestone)
  refine ⟨(ensureLabels env issue.labels st).1,
    cs0 ++ (ensureLabels env issue.labels st).2 ++
      [GhCall.issueCreateCmd (issue.title.getD "") issue.body
        (labelArgOf issue.labels) (msArgOf issue.milestone)],
    ?_, hk.1.trans hd, hk.2⟩
  simp only [finishIssue, hk.1.trans hd, Bool.false_eq_true, if_false, hresp]
  simp [pyTruthy, hne]

/-- On a fully successful backend a live `create_issue` returns `True`
exactly when the title is truthy. -/
theorem create_issue_live (env : GhEnv) (repo : String) (st : CreatorState)
    (issue : IssueSpec) (hs : successfulEnv env) (hd : st.dry_run = false)
    (hc : cacheNonzero st = true) :
    ∃ st' cs, create_issue env repo st issue = .ok (pyTruthy issue.title, st', cs) ∧
      st'.dry_run = false ∧ cacheNonzero st' = true := by
  unfold create_issue
  cases ht : pyTruthy issue.title with
  | false => exact ⟨st, [], by simp, hd, hc⟩
  | true =>
    cases hm : pyTruthy issue.milestone with
    | false =>
      obtain ⟨st', cs, hf, hd', hmc⟩ := finishIssue_live env st issue [] hs hd
      refine ⟨st', cs, ?_, hd', by simpa [cacheNonzero, hmc] using hc⟩
      simp [hm, hf]
    | true =>
      obtain ⟨n, st1, cs1, h1, hn, hd1, hc1⟩ :=
        cogm_live_ok env repo st (issue.milestone.getD "") hs hd hc
      obtain ⟨st', cs, hf, hd', hmc⟩ := finishIssue_live env st1 issue cs1 hs hd1
      refine ⟨st', cs, ?_, hd', by simpa [cacheNonzero, hmc] using hc1⟩
      simp [hm, h1, intTruthy, hn, hf]

/-- On a fully successful backend the live statistics loop tallies exactly
the truthy-title issues as created. -/
theorem runIssues_live (env : GhEnv) (repo : String) (st : CreatorState)
    (issues : List IssueSpec) (hs : successfulEnv env) (hd : st.dry_run = false)
    (hc : cacheNonzero st = true) :
    ∃ st' cs, runIssues env repo st issues =
      .ok (countTruthy issues, countFalsy issues, st', cs) ∧
      st'.dry_run = false ∧ cacheNonzero st' = true := by
  induction issues generalizing st with
  | nil => exact ⟨st, [], by simp [runIssues, countTruthy, countFalsy], hd, hc⟩
  | cons issue rest ih =>
    obtain ⟨st1, cs1, h1, hd1, hc1⟩ := create_issue_live env repo st issue hs hd hc
    obtain ⟨st2, cs2, h2, hd2, hc2⟩ := ih st1 hd1 hc1
    refine ⟨st2, cs1 ++ cs2, ?_, hd2, hc2⟩
    cases ht : pyTruthy issue.title <;>
      simp [runIssues, h1, h2, ht, countTruthy, countFalsy, List.filter]

/-- `create_or_get_milestone` has exactly four outcomes: a silent cache hit,
a success that caches the resolved number, a failure that leaves the state
untouched after the list-then-create call pair, or a raised conversion error
on a non-empty non-numeral response. -/
theorem cogm_cases (env : GhEnv) (repo : String) (st : CreatorState) (title : String) :
    (∃ n, mcLookup st.milestone_cache title = some n ∧
       create_or_get_milestone env repo st title = .ok (some n, st, [])) ∨
    (∃ n cs, create_or_get_milestone env repo st title = .ok (some n, mcache st title n, cs)) ∨
    (create_or_get_milestone env repo st title =
       .ok (none, st, [.apiListMilestones repo title, .apiCreateMilestone repo title])) ∨
    (∃ cs, create_or_get_milestone env repo st title = .error cs ∧
       ((∃ t, run_gh_command env (.apiListMilestones repo title) = some t ∧
          t ≠ "" ∧ pyInt t = none) ∨
        (∃ t, run_gh_command env (.apiCreateMilestone repo title) = some t ∧
          t ≠ "" ∧ pyInt t = none))) := by
  cases hm : mcLookup st.milestone_cache title with
  | some n => exact Or.inl ⟨n, rfl, by simp [create_or_get_milestone, hm]⟩
  | none =>
    cases hd : st.dry_run with
    | true => exact Or.inr (Or.inl ⟨1, [], by simp [create_or_get_milestone, hm, hd]⟩)
    | false =>
      cases hcond : (pyTruthy (run_gh_command env (.apiListMilestones repo title)) &&
          pyTruthy ((run_gh_command env (.apiListMilestones repo title)).map pyStrip)) with
      | true =>
        cases hp : pyInt ((run_gh_command env (.apiListMilestones repo title)).getD "") with
        | some n =>
          exact Or.inr (Or.inl ⟨n, [.apiListMilestones repo title],
            by simp [create_or_get_milestone, hm, hd, hcond, hp]⟩)
        | none =>
          refine Or.inr (Or.inr (Or.inr ⟨[.apiListMilestones repo title],
            by simp [create_or_get_milestone, hm, hd, hcond, hp], Or.inl ?_⟩))
          cases hout : run_gh_command env (.apiListMilestones repo title) with
          | none => rw [hout] at hcond; simp [pyTruthy] at hcond
          | some t =>
            refine ⟨t, rfl, ?_, ?_⟩
            · rw [hout] at hcond
              have h1 := (Bool.and_eq_true _ _).mp hcond |>.1
              simpa [pyTruthy] using h1
            · rw [hout] at hp; simpa using hp
      | false =>
        cases hout2 : run_gh_command env (.apiCreateMilestone repo title) with
        | none =>
          have hq : pyTruthy (run_gh_command env (.apiCreateMilestone repo title)) = false := by
            rw [hout2]; rfl
          exact Or.inr (Or.inr (Or.inl
            (by simp [create_or_get_milestone, hm, hd, hcond, hq])))
        | some t2 =>
          by_cases ht2 : t2 = ""
          · subst ht2
            have hq : pyTruthy (run_gh_command env (.apiCreateMilestone repo title)) = false := by
              rw [hout2]; rfl
            exact Or.inr (Or.inr (Or.inl
              (by simp [create_or_get_milestone, hm, hd, hcond, hq])))
          · have hq : pyTruthy (run_gh_command env (.apiCreateMilestone repo title)) = true := by
              rw [hout2]; simp [pyTruthy, ht2]
            have hgd : (run_gh_command env (.apiCreateMilestone repo title)).getD "" = t2 := by
              rw [hout2]; rfl
            cases hp : pyInt t2 with
            | some n =>
              exact Or.inr (Or.inl ⟨n,
                [.apiListMilestones repo title, .apiCreateMilestone repo title],
                by simp [create_or_get_milestone, hm, hd, hcond, hq, hgd, hp]⟩)
            | none =>
              exact Or.inr (Or.inr (Or.inr
                ⟨[.apiListMilestones repo title, .apiCreateMilestone repo title],
                 by simp [create_or_get_milestone, hm, hd, hcond, hq, hgd, hp],
                 Or.inr ⟨t2, rfl, ht2, hp⟩⟩))

theorem cogm_keeps (env : GhEnv) (repo : String) (st : CreatorState) (title : String)
    (r : Option Int) (st' : CreatorState) (cs : List GhCall)
    (h : create_or_get_milestone env repo st title = .ok (r, st', cs)) :
    st'.dry_run = st.dry_run ∧ st'.label_cache = st.label_cache := by
  rcases cogm_cases env repo st title with ⟨n, _, he⟩ | ⟨n, cs2, he⟩ | he | ⟨cs2, he, -⟩ <;>
    rw [he] at h
  · simp only [Except.ok.injEq, Prod.mk.injEq] at h
    obtain ⟨-, h2, -⟩ := h; subst h2; exact ⟨rfl, rfl⟩
  · simp only [Except.ok.injEq, Prod.mk.injEq] at h
    obtain ⟨-, h2, -⟩ := h; subst h2; exact ⟨rfl, rfl⟩
  · simp only [Except.ok.injEq, Prod.mk.injEq] at h
    obtain ⟨-, h2, -⟩ := h; subst h2; exact ⟨rfl, rfl⟩
  · simp at h

/-- Whenever `create_issue` reaches its submission tail in live mode, the
`gh issue create` command is issued, with the full comma-joined label list
and the milestone title, regardless of any label-creation failures. -/
theorem finishIssue_submits (env : GhEnv) (st : CreatorState) (issue : IssueSpec)
    (cs0 : List GhCall) (hd : st.dry_run = false) :
    ∃ r st', finishIssue env st issue cs0 =
      (r, st', cs0 ++ (ensureLabels env issue.labels st).2 ++
        [GhCall.issueCreateCmd (issue.title.getD "") issue.body
          (labelArgOf issue.labels) (msArgOf issue.milestone)]) := by
  have hk := ensureLabels_keeps env issue.labels st
  refine ⟨pyTruthy (run_gh_command env (GhCall.issueCreateCmd (issue.title.getD "")
    issue.body (labelArgOf issue.labels) (msArgOf issue.milestone))),
    (ensureLabels env issue.labels st).1, ?_⟩
  simp only [finishIssue, hk.1.trans hd, Bool.false_eq_true, if_false]
  cases hp : pyTruthy (run_gh_command env (GhCall.issueCreateCmd (issue.title.getD "")
      issue.body (labelArgOf issue.labels) (msArgOf issue.milestone))) <;>
    simp [hp]

/-! ## Claim theorems -/

/-- C1: in dry-run mode no operation issues any remote backend call (in
particular no mutating one): `create_or_get_milestone` succeeds and caches a
placeholder identifier, `create_label_if_missing` succeeds and caches the
label, `create_issue` returns created for every issue with a truthy title,
and a whole dry `process_yaml` run has an empty remote-call trace. -/
theorem dry_run_is_pure (env : GhEnv) (repo title label color : String)
    (st : CreatorState) (issue : IssueSpec) (doc : Option YamlDoc)
    (h : st.dry_run = true) (hc : cacheNonzero st = true) :
    (∃ n st', create_or_get_milestone env repo st title = .ok (some n, st', []) ∧
       mcLookup st'.milestone_cache title = some n) ∧
    (∃ st', create_label_if_missing env st label color = (true, st', []) ∧
       hasLabel st'.label_cache label = true) ∧
    (pyTruthy issue.title = true →
       ∃ st', create_issue env repo st issue = .ok (true, st', [])) ∧
    (process_yaml env repo true doc).2 = [] := by
  refine ⟨?_, ?_, ?_, ?_⟩
  · obtain ⟨n, st', h1, -, h2, -, -, -⟩ := cogm_dry env repo st title h hc
    exact ⟨n, st', h1, h2⟩
  · obtain ⟨st', h1, -, -, h2⟩ := clim_dry env st label color h
    exact ⟨st', h1, h2⟩
  · intro ht
    obtain ⟨st', h1, -, -⟩ := create_issue_dry env repo st issue h hc
    rw [ht] at h1
    exact ⟨st', h1⟩
  · cases doc with
    | none => rfl
    | some d =>
      cases he : (d.issuesField.getD []).isEmpty with
      | true => simp [process_yaml, he]
      | false =>
        obtain ⟨st', hr, -, -⟩ :=
          runIssues_dry env repo (initState true) (d.issuesField.getD []) rfl rfl
        simp [process_yaml, he, hr]

theorem dry_run_is_pure_witness :
    (process_yaml failEnv "o/r" true docAB).2 = [] :=
  (dry_run_is_pure failEnv "o/r" "M" "bug" "0366d6" (initState true) issueA docAB
    rfl rfl).2.2.2

/-- C2 counterexample: with a backend on which every call fails, two issues
sharing milestone title `"M"` each trigger the full remote list-then-create
sequence: the remote milestone-create call for `"M"` is issued twice in one
run, so the run does not perform at most one remote create-or-lookup
sequence for the shared title, and the second issue does not reuse a cached
identifier. -/
theorem milestone_retry_after_failure_cex :
    runIssues failEnv "o/r" (initState false) [issueA, issueB] =
      .ok (0, 2, initState false,
        [.apiListMilestones "o/r" "M", .apiCreateMilestone "o/r" "M",
         .apiListMilestones "o/r" "M", .apiCreateMilestone "o/r" "M"]) ∧
    List.count (GhCall.apiCreateMilestone "o/r" "M")
      [GhCall.apiListMilestones "o/r" "M", GhCall.apiCreateMilestone "o/r" "M",
       GhCall.apiListMilestones "o/r" "M", GhCall.apiCreateMilestone "o/r" "M"] = 2 :=
  ⟨rfl, rfl⟩

/-- C2 amended: once a title is in the milestone cache,
`create_or_get_milestone` returns the cached identifier with zero remote
calls, and every successful resolution leaves the title cached — so after
one success, later issues sharing the title reuse the identifier remotely
call-free.  (A failed resolution caches nothing and is retried for the next
issue with the same title, as the counterexample exhibits.) -/
theorem milestone_cache_reuse (env : GhEnv) (repo : String) (st : CreatorState)
    (title : String) :
    (∀ n, mcLookup st.milestone_cache title = some n →
       create_or_get_milestone env repo st title = .ok (some n, st, [])) ∧
    (∀ n st' cs, create_or_get_milestone env repo st title = .ok (some n, st', cs) →
       mcLookup st'.milestone_cache title = some n) := by
  constructor
  · intro n hm
    simp [create_or_get_milestone, hm]
  · intro n st' cs h
    rcases cogm_cases env repo st title with ⟨m, hm, he⟩ | ⟨m, cs2, he⟩ | he | ⟨cs2, he, -⟩ <;>
      rw [he] at h
    · simp only [Except.ok.injEq, Prod.mk.injEq] at h
      obtain ⟨h1, h2, -⟩ := h
      subst h2
      rw [hm]
      exact h1
    · simp only [Except.ok.injEq, Prod.mk.injEq] at h
      obtain ⟨h1, h2, -⟩ := h
      subst h2
      rw [mcLookup_mcache_self]
      exact h1
    · simp at h
    · simp at h

theorem milestone_cache_reuse_witness :
    create_or_get_milestone failEnv "o/r"
      { dry_run := false, milestone_cache := [("M", 5)], label_cache := [] } "M" =
      .ok (some 5,
        { dry_run := false, milestone_cache := [("M", 5)], label_cache := [] }, []) :=
  (milestone_cache_reuse failEnv "o/r"
    { dry_run := false, milestone_cache := [("M", 5)], label_cache := [] } "M").1 5 rfl

/-- C3: when a requested milestone resolves to not-found, `create_issue`
aborts the issue with exactly the milestone calls in its trace (no
issue-submission call), and the statistics loop counts the issue as failed
while continuing with the remaining issues. -/
theorem milestone_failure_aborts_issue (env : GhEnv) (repo : String)
    (st st2 : CreatorState) (issue : IssueSpec) (cs : List GhCall)
    (ht : pyTruthy issue.title = true) (hm : pyTruthy issue.milestone = true)
    (hres : create_or_get_milestone env repo st (issue.milestone.getD "") =
      .ok (none, st2, cs)) :
    create_issue env repo st issue = .ok (false, st2, cs) ∧
    (∀ t b la ma, GhCall.issueCreateCmd t b la ma ∉ cs) ∧
    (∀ rest c f st3 cs', runIssues env repo st2 rest = .ok (c, f, st3, cs') →
       runIssues env repo st (issue :: rest) = .ok (c, f + 1, st3, cs ++ cs')) := by
  have hcs : cs = [GhCall.apiListMilestones repo (issue.milestone.getD ""),
      GhCall.apiCreateMilestone repo (issue.milestone.getD "")] := by
    rcases cogm_cases env repo st (issue.milestone.getD "") with
      ⟨m, -, he⟩ | ⟨m, cs2, he⟩ | he | ⟨cs2, he, -⟩ <;> rw [he] at hres
    · exact absurd hres (by simp)
    · exact absurd hres (by simp)
    · simp only [Except.ok.injEq, Prod.mk.injEq, true_and] at hres
      exact hres.2.symm
    · exact absurd hres (by simp)
  subst hcs
  have hci : create_issue env repo st issue = .ok (false, st2,
      [GhCall.apiListMilestones repo (issue.milestone.getD ""),
       GhCall.apiCreateMilestone repo (issue.milestone.getD "")]) := by
    simp [create_issue, ht, hm, hres, intTruthy]
  refine ⟨hci, ?_, ?_⟩
  · intro t b la ma
    simp
  · intro rest c f st3 cs' hr
    simp [runIssues, hci, hr]

theorem milestone_failure_aborts_issue_witness :
    create_issue failEnv "o/r" (initState false) issueA =
      .ok (false, initState false,
        [GhCall.apiListMilestones "o/r" "M", GhCall.apiCreateMilestone "o/r" "M"]) :=
  (milestone_failure_aborts_issue failEnv "o/r" (initState false) (initState false)
    issueA [GhCall.apiListMilestones "o/r" "M", GhCall.apiCreateMilestone "o/r" "M"]
    rfl rfl rfl).1

/-- C4: a label-creation failure never aborts the issue: in live mode, once
the milestone step passes (or no milestone was requested), the issue
submission call is always issued — for any backend behaviour on the label
calls — and it carries the full comma-joined label list. -/
theorem label_failure_does_not_abort (env : GhEnv) (repo : String)
    (st : CreatorState) (issue : IssueSpec) (t : String)
    (hd : st.dry_run = false) (ht : issue.title = some t) (hne : t ≠ "")
    (hm : pyTruthy issue.milestone = false ∨
      ∃ n st1 cs1, n ≠ 0 ∧
        create_or_get_milestone env repo st (issue.milestone.getD "") =
          .ok (some n, st1, cs1)) :
    ∃ r st' cs, create_issue env repo st issue = .ok (r, st', cs) ∧
      GhCall.issueCreateCmd t issue.body (labelArgOf issue.labels)
        (msArgOf issue.milestone) ∈ cs := by
  have htt : pyTruthy issue.title = true := by simp [ht, pyTruthy, hne]
  have hgd : issue.title.getD "" = t := by rw [ht]; rfl
  cases hmil : pyTruthy issue.milestone with
  | false =>
    obtain ⟨r, st', hf⟩ := finishIssue_submits env st issue [] hd
    refine ⟨r, st',
      [] ++ (ensureLabels env issue.labels st).2 ++
        [GhCall.issueCreateCmd (issue.title.getD "") issue.body
          (labelArgOf issue.labels) (msArgOf issue.milestone)], ?_, ?_⟩
    · simp [create_issue, htt, hmil, hf]
    · simp [hgd]
  | true =>
    rcases hm with h0 | ⟨n, st1, cs1, hn0, hres⟩
    · simp [hmil] at h0
    · have hd1 : st1.dry_run = false :=
        (cogm_keeps env repo st (issue.milestone.getD "") (some n) st1 cs1 hres).1.trans hd
      obtain ⟨r, st', hf⟩ := finishIssue_submits env st1 issue cs1 hd1
      refine ⟨r, st',
        cs1 ++ (ensureLabels env issue.labels st1).2 ++
          [GhCall.issueCreateCmd (issue.title.getD "") issue.body
            (labelArgOf issue.labels) (msArgOf issue.milestone)], ?_, ?_⟩
      · simp [create_issue, htt, hmil, hres, intTruthy, hn0, hf]
      · simp [hgd]

theorem label_failure_does_not_abort_witness :
    ∃ r st' cs, create_issue failEnv "o/r" (initState false) issueLabeled =
      .ok (r, st', cs) ∧
      GhCall.issueCreateCmd "T" "b" (labelArgOf ["bug", "x"]) (msArgOf none) ∈ cs :=
  label_failure_does_not_abort failEnv "o/r" (initState false) issueLabeled "T"
    rfl rfl (by decide) (Or.inl rfl)

/-- C5: an issue whose title is absent or empty is skipped: `create_issue`
returns `False` immediately with zero remote calls of any kind, and the
statistics loop counts it as failed. -/
theorem missing_title_fails_fast (env : GhEnv) (repo : String)
    (st : CreatorState) (issue : IssueSpec) (rest : List IssueSpec)
    (h : issue.title = none ∨ issue.title = some "") :
    create_issue env repo st issue = .ok (false, st, []) ∧
    (∀ c f st' cs, runIssues env repo st rest = .ok (c, f, st', cs) →
       runIssues env repo st (issue :: rest) = .ok (c, f + 1, st', cs)) := by
  have ht : pyTruthy issue.title = false := by
    rcases h with h | h <;> simp [h, pyTruthy]
  have hci : create_issue env repo st issue = .ok (false, st, []) := by
    simp [create_issue, ht]
  refine ⟨hci, fun c f st' cs hr => ?_⟩
  simp [runIssues, hci, hr]

theorem missing_title_fails_fast_witness :
    create_issue failEnv "o/r" (initState false) issueNoTitle =
      .ok (false, initState false, []) :=
  (missing_title_fails_fast failEnv "o/r" (initState false) issueNoTitle []
    (Or.inl rfl)).1

/-- C6 counterexample: with an absent (or empty) top-level issues collection
the run prints the no-issues message and returns early with zero remote
calls and a zero exit status, but its outcome is `noIssues`, not the printed
summary block — no "zero created and zero failed" summary is reported. -/
theorem no_issues_no_summary_cex :
    process_yaml failEnv "o/r" false (some ⟨none⟩) = (.noIssues, []) ∧
    process_yaml failEnv "o/r" false (some ⟨some []⟩) = (.noIssues, []) ∧
    exitCode RunResult.noIssues = 0 ∧
    RunResult.noIssues ≠ RunResult.summary 0 0 0 := by
  refine ⟨rfl, rfl, rfl, ?_⟩
  intro h
  cases h

/-- C6 amended: an absent or empty issues collection is reported and ends
the run normally (exit status zero) with no issue processed and zero remote
calls; the created/failed summary block is skipped in this case. -/
theorem empty_issue_list_zero_work (env : GhEnv) (repo : String) (dry : Bool)
    (d : YamlDoc) (h : d.issuesField = none ∨ d.issuesField = some []) :
    process_yaml env repo dry (some d) = (.noIssues, []) ∧
    exitCode (process_yaml env repo dry (some d)).1 = 0 := by
  have he : (d.issuesField.getD []).isEmpty = true := by
    rcases h with h | h <;> simp [h]
  have hp : process_yaml env repo dry (some d) = (.noIssues, []) := by
    simp [process_yaml, he]
  exact ⟨hp, by rw [hp]; rfl⟩

theorem empty_issue_list_zero_work_witness :
    process_yaml failEnv "o/r" false (some ⟨none⟩) = (.noIssues, []) ∧
    exitCode (process_yaml failEnv "o/r" false (some ⟨none⟩)).1 = 0 :=
  empty_issue_list_zero_work failEnv "o/r" false ⟨none⟩ (Or.inl rfl)

/-- C7 counterexample: with a loadable configuration and an available
backend tool, a non-numeric response to the milestone lookup raises the
unguarded conversion error, which escapes and makes the process exit
nonzero — so a nonzero exit is not confined to configuration-load failures
and a missing backend. -/
theorem nonzero_exit_from_conversion_cex :
    (mainEntry true nonNumericEnv "o/r" false docA).1 = .uncaught ∧
    exitCode (mainEntry true nonNumericEnv "o/r" false docA).1 = 1 ∧
    docA ≠ none := by
  refine ⟨rfl, rfl, ?_⟩
  simp [docA]

/-- C7 amended: a run that completes normally (summary printed, or no
issues found) exits zero no matter how many issues failed; a nonzero exit
happens only for a missing backend tool, a configuration-load failure (both
with zero remote calls), or an escaped conversion error on a malformed
milestone-resolution response. -/
theorem exit_status_policy (gh : Bool) (env : GhEnv) (repo : String) (dry : Bool)
    (doc : Option YamlDoc) :
    (∀ c f t, (mainEntry gh env repo dry doc).1 = .summary c f t →
       exitCode (mainEntry gh env repo dry doc).1 = 0) ∧
    (exitCode (mainEntry gh env repo dry doc).1 ≠ 0 →
       gh = false ∨ doc = none ∨ (mainEntry gh env repo dry doc).1 = .uncaught) ∧
    ((gh = false ∨ doc = none) → (mainEntry gh env repo dry doc).2 = []) := by
  refine ⟨?_, ?_, ?_⟩
  · intro c f t h
    rw [h]
    rfl
  · intro hne
    cases gh with
    | false => exact Or.inl rfl
    | true =>
      cases doc with
      | none => exact Or.inr (Or.inl rfl)
      | some d =>
        refine Or.inr (Or.inr ?_)
        by_cases he : (d.issuesField.getD []).isEmpty = true
        · simp [mainEntry, process_yaml, he, exitCode] at hne
        · cases hr : runIssues env repo (initState dry) (d.issuesField.getD []) with
          | error cs => simp [mainEntry, process_yaml, he, hr]
          | ok r =>
            obtain ⟨c, f, st, cs⟩ := r
            simp [mainEntry, process_yaml, he, hr, exitCode] at hne
  · intro h
    rcases h with h | h
    · subst h; rfl
    · subst h; cases gh <;> rfl

theorem exit_status_policy_witness :
    (mainEntry false failEnv "o/r" false docA).2 = [] :=
  (exit_status_policy false failEnv "o/r" false docA).2.2 (Or.inl rfl)

/-- The constant-success backend satisfies `successfulEnv`. -/
theorem okEnv_successful : successfulEnv okEnv := by
  have h1 : pyStrip "1" = "1" := by decide
  have hok : pyStrip "ok" = "ok" := by decide
  refine ⟨?_, ?_, ?_, ?_, ?_⟩
  · intro repo title
    refine ⟨"1", ?_, fun _ => ⟨1, by decide, by decide⟩⟩
    show some (pyStrip "1") = some "1"
    rw [h1]
  · intro repo title
    refine ⟨"1", ?_, 1, by decide, by decide⟩
    show some (pyStrip "1") = some "1"
    rw [h1]
  · intro l
    exact ⟨pyStrip "ok", rfl⟩
  · intro l c
    rfl
  · intro t b la ma
    refine ⟨"ok", ?_, by decide⟩
    show some (pyStrip "ok") = some "ok"
    rw [hok]

/-- C8: for any configuration, a dry run yields exactly the same outcome —
the same created/failed counts in the summary, the same no-issues or
config-error result otherwise — as a live run on a backend where every
remote call succeeds, and the dry run issues zero remote calls of any
kind. -/
theorem dry_matches_live (env : GhEnv) (repo : String) (doc : Option YamlDoc)
    (hs : successfulEnv env) :
    (process_yaml env repo true doc).1 = (process_yaml env repo false doc).1 ∧
    (process_yaml env repo true doc).2 = [] := by
  cases doc with
  | none => exact ⟨rfl, rfl⟩
  | some d =>
    cases he : (d.issuesField.getD []).isEmpty with
    | true => constructor <;> simp [process_yaml, he]
    | false =>
      obtain ⟨st1, h1, -, -⟩ :=
        runIssues_dry env repo (initState true) (d.issuesField.getD []) rfl rfl
      obtain ⟨st2, cs2, h2, -, -⟩ :=
        runIssues_live env repo (initState false) (d.issuesField.getD []) hs rfl rfl
      constructor <;> simp [process_yaml, he, h1, h2]

theorem dry_matches_live_witness :
    (process_yaml okEnv "o/r" true docAB).1 = (process_yaml okEnv "o/r" false docAB).1 ∧
    (process_yaml okEnv "o/r" true docAB).2 = [] :=
  dry_matches_live okEnv "o/r" docAB okEnv_successful

/-- C9: failed resolutions are never cached and caches grow only by
successful (or dry-run simulated) entries: a not-found milestone resolution
and a failed label creation leave the state exactly as it was, and any
cache change is a single new entry tied to a successful result. -/
theorem failed_resolutions_not_cached (env : GhEnv) (repo : String)
    (st : CreatorState) (title label color : String) :
    (∀ st' cs, create_or_get_milestone env repo st title = .ok (none, st', cs) →
       st' = st) ∧
    (∀ st' cs, create_label_if_missing env st label color = (false, st', cs) →
       st' = st) ∧
    (∀ r st' cs, create_or_get_milestone env repo st title = .ok (r, st', cs) →
       st'.label_cache = st.label_cache ∧
       (st'.milestone_cache = st.milestone_cache ∨
        ∃ n, r = some n ∧ st'.milestone_cache = (title, n) :: st.milestone_cache)) ∧
    (∀ b st' cs, create_label_if_missing env st label color = (b, st', cs) →
       st'.milestone_cache = st.milestone_cache ∧
       (st'.label_cache = st.label_cache ∨
        (b = true ∧ st'.label_cache = st.label_cache ++ [label]))) := by
  refine ⟨?_, ?_, ?_, ?_⟩
  · intro st' cs h
    rcases cogm_cases env repo st title with ⟨m, -, he⟩ | ⟨m, cs2, he⟩ | he | ⟨cs2, he, -⟩ <;>
      rw [he] at h
    · exact absurd h (by simp)
    · exact absurd h (by simp)
    · simp only [Except.ok.injEq, Prod.mk.injEq, true_and] at h
      exact h.1.symm
    · exact absurd h (by simp)
  · intro st' cs h
    rcases clim_cases env st label color with he | ⟨cs2, he⟩ | ⟨cs2, he⟩ <;> rw [he] at h
    · exact absurd h (by simp)
    · exact absurd h (by simp)
    · simp only [Prod.mk.injEq] at h
      obtain ⟨-, h2, -⟩ := h
      exact h2.symm
  · intro r st' cs h
    rcases cogm_cases env repo st title with ⟨m, -, he⟩ | ⟨m, cs2, he⟩ | he | ⟨cs2, he, -⟩ <;>
      rw [he] at h
    · simp only [Except.ok.injEq, Prod.mk.injEq] at h
      obtain ⟨h1, h2, -⟩ := h
      subst h2
      exact ⟨rfl, Or.inl rfl⟩
    · simp only [Except.ok.injEq, Prod.mk.injEq] at h
      obtain ⟨h1, h2, -⟩ := h
      subst h2
      exact ⟨rfl, Or.inr ⟨m, h1.symm, rfl⟩⟩
    · simp only [Except.ok.injEq, Prod.mk.injEq] at h
      obtain ⟨-, h2, -⟩ := h
      subst h2
      exact ⟨rfl, Or.inl rfl⟩
    · exact absurd h (by simp)
  · intro b st' cs h
    rcases clim_cases env st label color with he | ⟨cs2, he⟩ | ⟨cs2, he⟩ <;> rw [he] at h <;>
      simp only [Prod.mk.injEq] at h
    · obtain ⟨h1, h2, -⟩ := h
      subst h2
      exact ⟨rfl, Or.inl rfl⟩
    · obtain ⟨h1, h2, -⟩ := h
      subst h2
      exact ⟨rfl, Or.inr ⟨h1.symm, rfl⟩⟩
    · obtain ⟨h1, h2, -⟩ := h
      subst h2
      exact ⟨rfl, Or.inl rfl⟩

theorem failed_resolutions_not_cached_witness :
    create_or_get_milestone failEnv "o/r" (initState false) "M" =
      .ok (none, initState false,
        [GhCall.apiListMilestones "o/r" "M", GhCall.apiCreateMilestone "o/r" "M"]) ∧
    initState false = initState false :=
  ⟨rfl, (failed_resolutions_not_cached failEnv "o/r" (initState false) "M" "bug"
    "0366d6").1 (initState false)
    [GhCall.apiListMilestones "o/r" "M", GhCall.apiCreateMilestone "o/r" "M"] rfl⟩

/-- C10: `create_or_get_milestone` converts backend responses with an
unguarded `int(...)`: whenever every non-empty response to the milestone
lookup and create calls is a decimal numeral, the conversion-error branch is
unreachable and the function always returns; and without that precondition
the error branch is reachable, as the all-`"abc"` backend shows. -/
theorem conversion_total_iff_numeral_responses (env : GhEnv) (repo title : String)
    (st : CreatorState)
    (h1 : ∀ t, run_gh_command env (.apiListMilestones repo title) = some t →
       t ≠ "" → (pyInt t).isSome)
    (h2 : ∀ t, run_gh_command env (.apiCreateMilestone repo title) = some t →
       t ≠ "" → (pyInt t).isSome) :
    (∃ res, create_or_get_milestone env repo st title = .ok res) ∧
    (∃ cs, create_or_get_milestone nonNumericEnv repo (initState false) title =
       .error cs) := by
  constructor
  · rcases cogm_cases env repo st title with ⟨n, -, he⟩ | ⟨n, cs2, he⟩ | he | ⟨cs2, he, hbad⟩
    · exact ⟨_, he⟩
    · exact ⟨_, he⟩
    · exact ⟨_, he⟩
    · rcases hbad with ⟨t, ht, htne, hpi⟩ | ⟨t, ht, htne, hpi⟩
      · have hsome := h1 t ht htne
        rw [hpi] at hsome
        simp at hsome
      · have hsome := h2 t ht htne
        rw [hpi] at hsome
        simp at hsome
  · exact ⟨[GhCall.apiListMilestones repo title], rfl⟩

theorem conversion_total_iff_numeral_responses_witness :
    (∃ res, create_or_get_milestone failEnv "o/r" (initState false) "M" = .ok res) ∧
    (∃ cs, create_or_get_milestone nonNumericEnv "o/r" (initState false) "M" =
       .error cs) :=
  conversion_total_iff_numeral_responses failEnv "o/r" "M" (initState false)
    (fun _ ht => Option.noConfusion ht) (fun _ ht => Option.noConfusion ht)
